import Mathlib

/-!
Verification of the operation-execution core (`executeOperation`,
`executeWithServerSelection`, `retryOperation`) of the MongoDB Node.js
driver, shallowly embedded in Lean.

The embedding follows the source file operations/execute_operation.ts
(src/unnamed/part_000).  External collaborators that are not part of the
extract (the error classifiers in ../error, `supportsRetryableWrites` and
`maxWireVersion` from ../utils, the session pool) are modelled from the
specification; each such definition carries a doc comment saying so.

Asynchrony is modelled by an explicit environment (`Env`) that answers the
outcomes of the suspending primitives (`topology.selectServer`,
`operation.execute`, `session.endSession`), and every run produces a trace
of observable events plus the final callback invocation and the final
session / operation state.
-/

namespace ExecCore

/-- Wire protocol constant from src/cmap/wire_protocol/constants.ts:
Supports the new OP_MSG wireprotocol (3.6+). -/
def SUPPORTS_OP_MSG : Nat := 6

/-- Wire protocol constant from src/cmap/wire_protocol/constants.ts:
0 means no information about what is supported on the server is known. -/
def UNKNOWN_WIRE_VERSION : Nat := 0

/-- Modelled from the spec (scenario 2 of section 8): the numeric server code
`MONGODB_ERROR_CODES.IllegalOperation` equals 20.  The error-code table lives
in ../error which is not part of this extract. -/
def MONGODB_ERROR_CODES_IllegalOperation : Int := 20

/-- source line 27: the legacy MMAPv1 remap code. -/
def MMAPv1_RETRY_WRITES_ERROR_CODE : Int := MONGODB_ERROR_CODES_IllegalOperation

/-- source lines 28-29: the canonical remap message. -/
def MMAPv1_RETRY_WRITES_ERROR_MESSAGE : String :=
  "This MongoDB deployment does not support retryable writes. Please add retryWrites=false to your connection string."

/-- Read preference modes (read_preference.ts is not part of the extract; the
mode set is fixed by the driver API).  `ReadPreference.equals` compares modes. -/
inductive RPMode
  | primary
  | primaryPreferred
  | secondary
  | secondaryPreferred
  | nearest
  deriving Repr, DecidableEq

/-- The string form of a mode, used in the Transaction error message. -/
def rpModeString : RPMode → String
  | .primary => "primary"
  | .primaryPreferred => "primaryPreferred"
  | .secondary => "secondary"
  | .secondaryPreferred => "secondaryPreferred"
  | .nearest => "nearest"

/-- Operation aspects, as used by the source (operations/operation.ts is not
part of the extract; the aspect names are those referenced in part_000). -/
inductive Aspect
  | READ_OPERATION
  | WRITE_OPERATION
  | RETRYABLE
  | CURSOR_CREATING
  | CURSOR_ITERATING
  deriving Repr, DecidableEq

/-- A server handle: its description carries the max wire version; whether it
advertises retryable writes stands for the capability consulted by
`supportsRetryableWrites` (../utils, modelled from the spec). -/
structure Server where
  wireVersionOfServer : Nat
  advertisesRetryableWrites : Bool
  deriving Repr, DecidableEq

/-- Modelled from the spec: `maxWireVersion` from ../utils; an absent server
yields the UNKNOWN wire version 0. -/
def maxWireVersion : Option Server → Nat
  | none => UNKNOWN_WIRE_VERSION
  | some s => s.wireVersionOfServer

/-- source lines 127-129. -/
def supportsRetryableReads (server : Option Server) : Bool :=
  decide (maxWireVersion server ≥ 6)

/-- Modelled from the spec: `supportsRetryableWrites` from ../utils holds iff
the server advertises retryable-write support; no server means no support. -/
def supportsRetryableWrites : Option Server → Bool
  | none => false
  | some s => s.advertisesRetryableWrites

/-- A logical session with transaction state (sessions.ts is not part of the
extract; fields follow the data model of section 3 of the spec and the uses
in part_000). -/
structure Session where
  owner : Option Nat
  hasEnded : Bool
  snapshotEnabled : Bool
  txnNumber : Nat
  isPinned : Bool
  inTransaction : Bool
  transactionIsCommitted : Bool
  deriving Repr, DecidableEq

/-- Modelled from the spec: `session.unpin` clears the pinned-server slot. -/
def Session.unpin (s : Session) : Session := { s with isPinned := false }

/-- Modelled from the spec: transaction numbers are monotonically increasing;
`incrementTransactionNumber` adds one. -/
def Session.incrementTransactionNumber (s : Session) : Session :=
  { s with txnNumber := s.txnNumber + 1 }

/-- Modelled from the spec: `endSession` sets the ended flag. -/
def Session.endSessionState (s : Session) : Session := { s with hasEnded := true }

/-- `session?.inTransaction()` of the source (`!!` coerces absent to false). -/
def sessionInTransaction : Option Session → Bool
  | none => false
  | some s => s.inTransaction

/-- `session?.isPinned` of the source. -/
def sessionIsPinned : Option Session → Bool
  | none => false
  | some s => s.isPinned

/-- `session?.transaction.isCommitted` of the source. -/
def sessionTransactionIsCommitted : Option Session → Bool
  | none => false
  | some s => s.transactionIsCommitted

/-- Error kinds: the MongoError subclasses used by the source. -/
inductive ErrKind
  | runtime
  | expiredSession
  | compatibility
  | transaction
  | network
  | server
  | unexpectedServerResponse
  | selection
  deriving Repr, DecidableEq

/-- A MongoError value: kind tag, user message, optional server code, server
message and error labels (section 3 of the spec). -/
structure MongoErr where
  kind : ErrKind
  message : String
  code : Option Int := none
  errmsg : String := ""
  labels : List String := []
  deriving Repr, DecidableEq

/-- An error travelling through a callback: either a MongoError or a plain
JavaScript error (the `error instanceof MongoError` test distinguishes them). -/
inductive DriverError
  | mongo (e : MongoErr)
  | js (tag : Nat)
  deriving Repr, DecidableEq

def MongoTransactionErrorFor (mode : RPMode) : MongoErr :=
  { kind := .transaction
    message := "Read preference in a transaction must be primary, not: " ++ rpModeString mode }

def MongoExpiredSessionErr : MongoErr :=
  { kind := .expiredSession, message := "Use of expired sessions is not permitted" }

def SnapshotCompatibilityErr : MongoErr :=
  { kind := .compatibility, message := "Snapshot reads require MongoDB 5.0 or later" }

def SessionsCompatibilityErr : MongoErr :=
  { kind := .compatibility, message := "Current topology does not support sessions" }

def mongoUnexpected (msg : String) : MongoErr :=
  { kind := .unexpectedServerResponse, message := msg }

/-- source lines 186-190: the stable MongoServerError built by the MMAPv1
remap, carrying the canonical message both as message and as errmsg. -/
def MMAPv1RemapError : MongoErr :=
  { kind := .server
    message := MMAPv1_RETRY_WRITES_ERROR_MESSAGE
    errmsg := MMAPv1_RETRY_WRITES_ERROR_MESSAGE }

def hasErrorLabel (e : MongoErr) (l : String) : Bool := e.labels.contains l

/-- Modelled from the spec (section 4.5): the legacy retryable write code set
consulted for pre-label servers.  ../error, which holds the concrete list, is
not part of this extract; the membership never matters below because the
legacy branch is gated on a wire version below the supported minimum. -/
def RETRYABLE_WRITE_ERROR_CODES : List Int :=
  [6, 7, 89, 91, 189, 262, 9001, 10107, 11600, 11602, 13435, 13436]

/-- Modelled from the spec (section 4.5): the state-change codes
(not-master, node-shutting-down family) that make a read error retryable. -/
def RETRYABLE_READ_ERROR_CODES : List Int :=
  [91, 189, 10107, 11600, 11602, 13435, 13436]

/-- Modelled from the spec (section 4.5): a write error is retryable iff it
carries the RetryableWriteError label, or it is a network error, or, for
pre-label servers identified by a snapshotted max wire version below
SUPPORTS_OP_MSG, its numeric code is in the legacy retryable set.
(`isRetryableWriteError` lives in ../error, not part of this extract.) -/
def isRetryableWriteError (e : MongoErr) (mwv : Nat) : Bool :=
  hasErrorLabel e "RetryableWriteError" || (e.kind == .network) ||
    (decide (mwv < SUPPORTS_OP_MSG) &&
      (match e.code with
       | some c => RETRYABLE_WRITE_ERROR_CODES.contains c
       | none => false))

/-- Modelled from the spec (section 4.5): a read error is retryable iff it is
a network error, a state-change error, or carries the RetryableWriteError
label.  (`isRetryableReadError` lives in ../error, not part of this extract.) -/
def isRetryableReadError (e : MongoErr) : Bool :=
  (e.kind == .network) ||
    (match e.code with
     | some c => RETRYABLE_READ_ERROR_CODES.contains c
     | none => false) ||
    hasErrorLabel e "RetryableWriteError"

/-- Structural substring check: does `pat` occur inside `s`?  This models the
regular expression test `/Transaction numbers/.test(errmsg)` of line 183. -/
def charsStartWith : List Char → List Char → Bool
  | [], _ => true
  | _ :: _, [] => false
  | p :: ps, c :: cs => (p == c) && charsStartWith ps cs

def charsContain (pat : List Char) : List Char → Bool
  | [] => charsStartWith pat []
  | c :: cs => charsStartWith pat (c :: cs) || charsContain pat cs

def testSubstring (pat s : String) : Bool := charsContain pat.toList s.toList

/-- An operation: aspect set, flags and the mutable options bag marker
(`options.willRetryWrite`), following section 3 of the spec and the fields
part_000 reads. -/
structure Operation where
  aspects : List Aspect
  readPreference : Option RPMode := none
  session : Option Session := none
  server : Option Server := none
  canRetryRead : Bool := false
  canRetryWrite : Bool := false
  trySecondaryWrite : Bool := false
  bypassPinningCheck : Bool := false
  willRetryWriteOpt : Bool := false
  deriving Repr, DecidableEq

def Operation.hasAspect (op : Operation) (a : Aspect) : Bool := op.aspects.contains a

/-- The topology view consumed by the core (section 6 of the spec).
`retryReads` and `retryWrites` are tri-state: absent, true or false, because
the source compares with `!== false` and `=== true` respectively. -/
structure Topology where
  shouldCheckForSessionSupport : Bool
  hasSessionSupport : Bool
  supportsSnapshotReads : Bool
  commonWireVersion : Option Nat := none
  retryReads : Option Bool := none
  retryWrites : Option Bool := none
  deriving Repr, DecidableEq

/-- The server-selection policy passed to `topology.selectServer`. -/
inductive Selector
  | sameServer (desc : Option Server)
  | secondaryWritable (commonWireVersion : Option Nat) (rp : RPMode)
  | readPref (rp : RPMode)
  deriving Repr, DecidableEq

/-- Observable events of one execution. -/
inductive Event
  | selectServer (sel : Selector)
  | executeAttempt
  | incrementTxn
  | unpin (force : Bool)
  | sessionStart
  | sessionEnd
  deriving Repr, DecidableEq

/-- The environment answering the suspending primitives of one execution:
the fresh owner symbol, the transaction number of the pooled session handed
out by `startSession`, the outcomes of the discovery selection, of the two
`selectServer` calls and of the two `operation.execute` calls, whether the
inner pipeline throws synchronously, and the `endSession` outcome. -/
structure Env (R : Type) where
  freshOwner : Nat
  pooledTxnNumber : Nat := 0
  preSelect : Option DriverError := none
  select1 : Option DriverError × Option Server
  attempt1 : Option DriverError × Option R
  select2 : Option DriverError × Option Server := (none, none)
  attempt2 : Option DriverError × Option R := (none, none)
  innerThrow : Option DriverError := none
  endSessionError : Option DriverError := none

/-- Result of the inner pipeline: events, the arguments of the final callback
invocation, and the final session and operation states. -/
structure SelTrace (R : Type) where
  events : List Event
  callbackArgs : Option DriverError × Option R
  session : Option Session
  operation : Operation

/-- Result of `retryOperation`: its own events, the callback arguments, and
the final session state. -/
structure RetryTrace (R : Type) where
  events : List Event
  callbackArgs : Option DriverError × Option R
  session : Session

/-- Result of the coordinator: `callback = none` means the callback was never
invoked (the synchronous-throw path). -/
structure ExecTrace (R : Type) where
  events : List Event
  callback : Option (Option DriverError × Option R)
  session : Option Session
  operation : Operation

/-- source lines 152-165: selector choice. -/
def selectorForOperation (t : Topology) (op : Operation) (rp : RPMode) : Selector :=
  if op.hasAspect .CURSOR_ITERATING then
    .sameServer op.server
  else if op.trySecondaryWrite then
    .secondaryWritable t.commonWireVersion rp
  else
    .readPref rp

/-- source line 257-261: the local const `willRetryRead` (the source applies
`supportsRetryableReads` to the selected server, typed optional). -/
def willRetryReadOf (t : Topology) (inTransaction : Bool) (server : Option Server)
    (op : Operation) : Bool :=
  !(t.retryReads == some false) && !inTransaction &&
    supportsRetryableReads server && op.canRetryRead

/-- source line 263-267: the local const `willRetryWrite`. -/
def willRetryWriteOf (t : Topology) (inTransaction : Bool) (server : Option Server)
    (op : Operation) : Bool :=
  (t.retryWrites == some true) && !inTransaction &&
    supportsRetryableWrites server && op.canRetryWrite

/-- source lines 168-234: the retry policy, entered with the original
MongoError of the first attempt and the snapshotted max wire version.
The re-selection callback receives `env.select2` as its `(error, server)`
arguments. -/
def retryOperation {R : Type} (selector : Selector) (op : Operation) (s : Session)
    (env : Env R) (originalError : MongoErr) (mwv : Nat) : RetryTrace R :=
  let isWriteOperation := op.hasAspect .WRITE_OPERATION
  let isReadOperation := op.hasAspect .READ_OPERATION
  if isWriteOperation && !isRetryableWriteError originalError mwv then
    ⟨[], (some (.mongo originalError), none), s⟩
  else if isReadOperation && !isRetryableReadError originalError then
    ⟨[], (some (.mongo originalError), none), s⟩
  else if isWriteOperation && (originalError.code == some MMAPv1_RETRY_WRITES_ERROR_CODE)
      && testSubstring "Transaction numbers" originalError.errmsg then
    ⟨[], (some (.mongo MMAPv1RemapError), none), s⟩
  else
    let doForceUnpin := (originalError.kind == .network) && s.isPinned &&
      !s.inTransaction && op.hasAspect .CURSOR_CREATING
    let s2 := if doForceUnpin then s.unpin else s
    let ev1 : List Event := if doForceUnpin then [.unpin true] else []
    let ev2 := ev1 ++ [.selectServer selector]
    let error := env.select2.1
    let server := env.select2.2
    if error.isNone && op.hasAspect .READ_OPERATION && !supportsRetryableReads server then
      ⟨ev2, (some (.mongo (mongoUnexpected "Selected server does not support retryable reads")), none), s2⟩
    else if error.isNone && op.hasAspect .WRITE_OPERATION && !supportsRetryableWrites server then
      ⟨ev2, (some (.mongo (mongoUnexpected "Selected server does not support retryable writes")), none), s2⟩
    else if error.isSome || server.isNone then
      ⟨ev2,
        (match error with
         | some e => some e
         | none => some (.mongo (mongoUnexpected "Server selection failed without error")), none), s2⟩
    else
      ⟨ev2 ++ [.executeAttempt], env.attempt2, s2⟩

/-- source lines 131-295: the inner state machine `executeWithServerSelection`. -/
def executeWithServerSelection {R : Type} (t : Topology) (session : Option Session)
    (op : Operation) (env : Env R) : SelTrace R :=
  let readPreference := op.readPreference.getD .primary
  let inTransaction := sessionInTransaction session
  if inTransaction && !(readPreference == .primary) then
    ⟨[], (some (.mongo (MongoTransactionErrorFor readPreference)), none), session, op⟩
  else
    let doUnpin := sessionIsPinned session && sessionTransactionIsCommitted session &&
      !op.bypassPinningCheck
    let session1 := if doUnpin then session.map Session.unpin else session
    let ev0 : List Event := if doUnpin then [.unpin false] else []
    let selector := selectorForOperation t op readPreference
    if !(readPreference == .primary) && sessionInTransaction session1 then
      ⟨ev0, (some (.mongo (MongoTransactionErrorFor readPreference)), none), session1, op⟩
    else
      let ev1 := ev0 ++ [.selectServer selector]
      let error := env.select1.1
      let server := env.select1.2
      if error.isSome || server.isNone then
        ⟨ev1, (error, none), session1, op⟩
      else
        match session1 with
        | some s =>
          if op.hasAspect .RETRYABLE then
            let willRetryRead := willRetryReadOf t inTransaction server op
            let willRetryWrite := willRetryWriteOf t inTransaction server op
            let hasReadAspect := op.hasAspect .READ_OPERATION
            let hasWriteAspect := op.hasAspect .WRITE_OPERATION
            if (hasReadAspect && willRetryRead) || (hasWriteAspect && willRetryWrite) then
              let armWrite := hasWriteAspect && willRetryWrite
              let op2 := if armWrite then { op with willRetryWriteOpt := true } else op
              let s2 := if armWrite then s.incrementTransactionNumber else s
              let evInc : List Event := if armWrite then [.incrementTxn] else []
              let knownMaxWireVersion := maxWireVersion server
              let ev2 := ev1 ++ evInc ++ [.executeAttempt]
              match env.attempt1.1 with
              | some (.mongo e) =>
                let rt := retryOperation selector op2 s2 env e knownMaxWireVersion
                ⟨ev2 ++ rt.events, rt.callbackArgs, some rt.session, op2⟩
              | some (.js n) => ⟨ev2, (some (.js n), none), some s2, op2⟩
              | none => ⟨ev2, (none, env.attempt1.2), some s2, op2⟩
            else
              ⟨ev1 ++ [.executeAttempt], env.attempt1, some s, op⟩
          else
            ⟨ev1 ++ [.executeAttempt], env.attempt1, some s, op⟩
        | none => ⟨ev1 ++ [.executeAttempt], env.attempt1, none, op⟩

/-- Modelled from the spec: `topology.startSession` hands out a pooled session
tagged with the given fresh owner value (the session pool is not part of this
extract). -/
def startSession (pooledTxnNumber : Nat) (owner : Nat) : Session :=
  { owner := some owner, hasEnded := false, snapshotEnabled := false,
    txnNumber := pooledTxnNumber, isPinned := false, inTransaction := false,
    transactionIsCommitted := false }

/-- source lines 92-107: session acquisition.  Returns the locally remembered
owner value (present iff an implicit session was minted) and the session, or
the fail-fast error. -/
def sessionAcquisition (t : Topology) (op : Operation) (freshOwner pooledTxnNumber : Nat) :
    Except MongoErr (Option Nat × Option Session) :=
  if t.hasSessionSupport then
    match op.session with
    | none => .ok (some freshOwner, some (startSession pooledTxnNumber freshOwner))
    | some s =>
      if s.hasEnded then .error MongoExpiredSessionErr
      else if s.snapshotEnabled && !t.supportsSnapshotReads then .error SnapshotCompatibilityErr
      else .ok (none, some s)
  else
    match op.session with
    | some _ => .error SessionsCompatibilityErr
    | none => .ok (none, none)

/-- source lines 111 and 120: `session && session.owner != null &&
session.owner === owner`, the teardown ownership test (tags, not identity). -/
def ownerMatchesLocal (session : Option Session) (owner : Option Nat) : Bool :=
  match session with
  | none => false
  | some s =>
    match s.owner with
    | none => false
    | some so => owner == some so

/-- source lines 92-124: the body of the coordinator after the
session-support discovery gate. -/
def executeOperationBody {R : Type} (t : Topology) (op : Operation) (env : Env R) :
    ExecTrace R :=
  match sessionAcquisition t op env.freshOwner env.pooledTxnNumber with
  | .error e => ⟨[], some (some (.mongo e), none), op.session, op⟩
  | .ok pr =>
    let owner := pr.1
    let session := pr.2
    let ev0 : List Event := if owner.isSome then [.sessionStart] else []
    match env.innerThrow with
    | some _e =>
      if ownerMatchesLocal session owner then
        ⟨ev0 ++ [.sessionEnd], none, session.map Session.endSessionState, op⟩
      else
        ⟨ev0, none, session, op⟩
    | none =>
      let inner := executeWithServerSelection t session op env
      if ownerMatchesLocal inner.session owner then
        ⟨ev0 ++ inner.events ++ [.sessionEnd],
          some ((match env.endSessionError with
                 | some f => some f
                 | none => inner.callbackArgs.1), inner.callbackArgs.2),
          inner.session.map Session.endSessionState, inner.operation⟩
      else
        ⟨ev0 ++ inner.events, some inner.callbackArgs, inner.session, inner.operation⟩

/-- source lines 60-125: the coordinator.  The discovery recursion of lines
82-88 is unrolled once: after a successful primaryPreferred selection the
topology has completed discovery and no longer requests the check, modelled
by clearing the flag. -/
def executeOperation {R : Type} (t : Topology) (op : Operation) (env : Env R) :
    ExecTrace R :=
  if t.shouldCheckForSessionSupport then
    match env.preSelect with
    | some e =>
      ⟨[.selectServer (.readPref .primaryPreferred)], some (some e, none), op.session, op⟩
    | none =>
      let r := executeOperationBody { t with shouldCheckForSessionSupport := false } op env
      ⟨.selectServer (.readPref .primaryPreferred) :: r.events, r.callback, r.session, r.operation⟩
  else
    executeOperationBody t op env

/-! ## Event classification predicates used by the statements below -/

def isIncEv : Event → Bool
  | .incrementTxn => true
  | _ => false

def isAttemptEv : Event → Bool
  | .executeAttempt => true
  | _ => false

def isStartEv : Event → Bool
  | .sessionStart => true
  | _ => false

def isEndEv : Event → Bool
  | .sessionEnd => true
  | _ => false

def isSelectEv : Event → Bool
  | .selectServer _ => true
  | _ => false

/-! ## Facts about the retry policy in isolation -/

theorem retryOperation_basic {R : Type} (sel : Selector) (op : Operation) (s : Session)
    (env : Env R) (e : MongoErr) (mwv : Nat) :
    (retryOperation sel op s env e mwv).events.countP isIncEv = 0
    ∧ (retryOperation sel op s env e mwv).events.countP isStartEv = 0
    ∧ (retryOperation sel op s env e mwv).events.countP isEndEv = 0
    ∧ (retryOperation sel op s env e mwv).events.countP isAttemptEv ≤ 1
    ∧ ((retryOperation sel op s env e mwv).events.countP isAttemptEv = 1 →
        (retryOperation sel op s env e mwv).callbackArgs = env.attempt2)
    ∧ (retryOperation sel op s env e mwv).session.owner = s.owner
    ∧ (retryOperation sel op s env e mwv).session.hasEnded = s.hasEnded
    ∧ (retryOperation sel op s env e mwv).session.txnNumber = s.txnNumber := by
  unfold retryOperation
  dsimp only
  (repeat' split) <;>
    simp [Session.unpin, isIncEv, isStartEv, isEndEv, isAttemptEv,
      List.countP_cons, List.countP_append]

theorem retryOperation_countP_inc {R : Type} (sel : Selector) (op : Operation) (s : Session)
    (env : Env R) (e : MongoErr) (mwv : Nat) :
    (retryOperation sel op s env e mwv).events.countP isIncEv = 0 :=
  (retryOperation_basic sel op s env e mwv).1

theorem retryOperation_countP_start {R : Type} (sel : Selector) (op : Operation) (s : Session)
    (env : Env R) (e : MongoErr) (mwv : Nat) :
    (retryOperation sel op s env e mwv).events.countP isStartEv = 0 :=
  (retryOperation_basic sel op s env e mwv).2.1

theorem retryOperation_countP_end {R : Type} (sel : Selector) (op : Operation) (s : Session)
    (env : Env R) (e : MongoErr) (mwv : Nat) :
    (retryOperation sel op s env e mwv).events.countP isEndEv = 0 :=
  (retryOperation_basic sel op s env e mwv).2.2.1

theorem retryOperation_attempt_le {R : Type} (sel : Selector) (op : Operation) (s : Session)
    (env : Env R) (e : MongoErr) (mwv : Nat) :
    (retryOperation sel op s env e mwv).events.countP isAttemptEv ≤ 1 :=
  (retryOperation_basic sel op s env e mwv).2.2.2.1

theorem retryOperation_attempt2 {R : Type} (sel : Selector) (op : Operation) (s : Session)
    (env : Env R) (e : MongoErr) (mwv : Nat) :
    (retryOperation sel op s env e mwv).events.countP isAttemptEv = 1 →
      (retryOperation sel op s env e mwv).callbackArgs = env.attempt2 :=
  (retryOperation_basic sel op s env e mwv).2.2.2.2.1

theorem retryOperation_owner {R : Type} (sel : Selector) (op : Operation) (s : Session)
    (env : Env R) (e : MongoErr) (mwv : Nat) :
    (retryOperation sel op s env e mwv).session.owner = s.owner :=
  (retryOperation_basic sel op s env e mwv).2.2.2.2.2.1

theorem retryOperation_hasEnded {R : Type} (sel : Selector) (op : Operation) (s : Session)
    (env : Env R) (e : MongoErr) (mwv : Nat) :
    (retryOperation sel op s env e mwv).session.hasEnded = s.hasEnded :=
  (retryOperation_basic sel op s env e mwv).2.2.2.2.2.2.1

theorem retryOperation_txn {R : Type} (sel : Selector) (op : Operation) (s : Session)
    (env : Env R) (e : MongoErr) (mwv : Nat) :
    (retryOperation sel op s env e mwv).session.txnNumber = s.txnNumber :=
  (retryOperation_basic sel op s env e mwv).2.2.2.2.2.2.2

/-- The condition under which the inner state machine increments the
transaction number: the first selection produced a server and no error, the
operation is RETRYABLE with the WRITE aspect, and the write-retry gate of
source lines 263-267 is true for the selected server. -/
def writeRetryArmed {R : Type} (t : Topology) (s : Session) (op : Operation)
    (env : Env R) : Bool :=
  !(env.select1.1.isSome || env.select1.2.isNone) &&
    op.hasAspect .RETRYABLE && op.hasAspect .WRITE_OPERATION &&
    willRetryWriteOf t s.inTransaction env.select1.2 op

/-! ## Facts about the inner state machine -/

set_option maxHeartbeats 2000000 in
theorem ewss_preserve {R : Type} (t : Topology) (session : Option Session) (op : Operation)
    (env : Env R) :
    (executeWithServerSelection t session op env).session.map Session.owner
      = session.map Session.owner
    ∧ (executeWithServerSelection t session op env).session.map Session.hasEnded
      = session.map Session.hasEnded
    ∧ (executeWithServerSelection t session op env).events.countP isStartEv = 0
    ∧ (executeWithServerSelection t session op env).events.countP isEndEv = 0 := by
  unfold executeWithServerSelection
  dsimp only [sessionInTransaction, sessionIsPinned, sessionTransactionIsCommitted]
  cases session <;>
    ((repeat' split) <;> (try subst_eqs) <;>
      simp_all [Session.unpin, Session.incrementTransactionNumber,
        isStartEv, isEndEv, List.countP_cons, List.countP_append,
        retryOperation_countP_start, retryOperation_countP_end,
        retryOperation_owner, retryOperation_hasEnded])

set_option maxHeartbeats 2000000 in
theorem ewss_attempt_le {R : Type} (t : Topology) (session : Option Session) (op : Operation)
    (env : Env R) :
    (executeWithServerSelection t session op env).events.countP isAttemptEv ≤ 2 := by
  unfold executeWithServerSelection
  dsimp only [sessionInTransaction, sessionIsPinned, sessionTransactionIsCommitted]
  cases session <;>
    ((repeat' split) <;> (try subst_eqs) <;>
      (try simp [isAttemptEv, List.countP_cons, List.countP_append]) <;>
      first
      | rfl
      | exact Nat.add_le_add_right (retryOperation_attempt_le _ _ _ _ _ _) 1
      | exact retryOperation_attempt_le _ _ _ _ _ _)

set_option maxHeartbeats 2000000 in
theorem ewss_attempt_two {R : Type} (t : Topology) (session : Option Session) (op : Operation)
    (env : Env R) :
    (executeWithServerSelection t session op env).events.countP isAttemptEv = 2 →
      (executeWithServerSelection t session op env).callbackArgs = env.attempt2 := by
  unfold executeWithServerSelection
  dsimp only [sessionInTransaction, sessionIsPinned, sessionTransactionIsCommitted]
  cases session <;>
    ((repeat' split) <;> (try subst_eqs) <;>
      (try simp [isAttemptEv, List.countP_cons, List.countP_append]) <;>
      first
      | rfl
      | (intro h; exact retryOperation_attempt2 _ _ _ _ _ _ (by omega)))

/-! ## Ownership and coordinator shape lemmas -/

theorem ownerMatchesLocal_of_map {sess : Option Session} {ow : Nat}
    (h : sess.map Session.owner = some (some ow)) :
    ownerMatchesLocal sess (some ow) = true := by
  cases sess <;> simp_all [ownerMatchesLocal]

theorem ownerMatchesLocal_none (sess : Option Session) :
    ownerMatchesLocal sess none = false := by
  cases sess with
  | none => rfl
  | some s => cases h : s.owner <;> simp [ownerMatchesLocal, h]

theorem executeOperation_noCheck {R : Type} (t : Topology) (op : Operation) (env : Env R)
    (h0 : t.shouldCheckForSessionSupport = false) :
    executeOperation t op env = executeOperationBody t op env := by
  unfold executeOperation
  simp [h0]

theorem body_implicit_throw {R : Type} (t : Topology) (op : Operation) (env : Env R)
    (e : DriverError)
    (h1 : t.hasSessionSupport = true) (h2 : op.session = none)
    (h3 : env.innerThrow = some e) :
    executeOperationBody t op env =
      ⟨[.sessionStart, .sessionEnd], none,
        some (startSession env.pooledTxnNumber env.freshOwner).endSessionState, op⟩ := by
  unfold executeOperationBody sessionAcquisition
  simp [h1, h2, h3, ownerMatchesLocal, startSession]

theorem body_implicit_normal {R : Type} (t : Topology) (op : Operation) (env : Env R)
    (h1 : t.hasSessionSupport = true) (h2 : op.session = none)
    (h3 : env.innerThrow = none) :
    executeOperationBody t op env =
      ⟨[.sessionStart] ++ (executeWithServerSelection t
          (some (startSession env.pooledTxnNumber env.freshOwner)) op env).events
        ++ [.sessionEnd],
       some ((match env.endSessionError with
              | some f => some f
              | none => (executeWithServerSelection t
                  (some (startSession env.pooledTxnNumber env.freshOwner)) op env).callbackArgs.1),
             (executeWithServerSelection t
                (some (startSession env.pooledTxnNumber env.freshOwner)) op env).callbackArgs.2),
       (executeWithServerSelection t
          (some (startSession env.pooledTxnNumber env.freshOwner)) op env).session.map
         Session.endSessionState,
       (executeWithServerSelection t
          (some (startSession env.pooledTxnNumber env.freshOwner)) op env).operation⟩ := by
  have hmatch : ownerMatchesLocal
      (executeWithServerSelection t
        (some (startSession env.pooledTxnNumber env.freshOwner)) op env).session
      (some env.freshOwner) = true := by
    apply ownerMatchesLocal_of_map
    simpa [startSession] using (ewss_preserve t
      (some (startSession env.pooledTxnNumber env.freshOwner)) op env).1
  unfold executeOperationBody sessionAcquisition
  cases he : env.endSessionError <;> simp [h1, h2, h3, hmatch, he]

theorem body_explicit_throw {R : Type} (t : Topology) (op : Operation) (env : Env R)
    (s2 : Session) (e : DriverError)
    (h1 : t.hasSessionSupport = true) (h2 : op.session = some s2)
    (h3 : s2.hasEnded = false)
    (h4 : (s2.snapshotEnabled && !t.supportsSnapshotReads) = false)
    (h5 : env.innerThrow = some e) :
    executeOperationBody t op env = ⟨[], none, some s2, op⟩ := by
  unfold executeOperationBody sessionAcquisition
  simp [h1, h2, h3, h4, h5, ownerMatchesLocal_none]

theorem body_explicit_normal {R : Type} (t : Topology) (op : Operation) (env : Env R)
    (s2 : Session)
    (h1 : t.hasSessionSupport = true) (h2 : op.session = some s2)
    (h3 : s2.hasEnded = false)
    (h4 : (s2.snapshotEnabled && !t.supportsSnapshotReads) = false)
    (h5 : env.innerThrow = none) :
    executeOperationBody t op env =
      ⟨(executeWithServerSelection t (some s2) op env).events,
       some (executeWithServerSelection t (some s2) op env).callbackArgs,
       (executeWithServerSelection t (some s2) op env).session,
       (executeWithServerSelection t (some s2) op env).operation⟩ := by
  unfold executeOperationBody sessionAcquisition
  simp [h1, h2, h3, h4, h5, ownerMatchesLocal_none]

theorem body_nosession_throw {R : Type} (t : Topology) (op : Operation) (env : Env R)
    (e : DriverError)
    (h1 : t.hasSessionSupport = false) (h2 : op.session = none)
    (h3 : env.innerThrow = some e) :
    executeOperationBody t op env = ⟨[], none, none, op⟩ := by
  unfold executeOperationBody sessionAcquisition
  simp [h1, h2, h3, ownerMatchesLocal_none]

theorem body_nosession_normal {R : Type} (t : Topology) (op : Operation) (env : Env R)
    (h1 : t.hasSessionSupport = false) (h2 : op.session = none)
    (h3 : env.innerThrow = none) :
    executeOperationBody t op env =
      ⟨(executeWithServerSelection t none op env).events,
       some (executeWithServerSelection t none op env).callbackArgs,
       (executeWithServerSelection t none op env).session,
       (executeWithServerSelection t none op env).operation⟩ := by
  unfold executeOperationBody sessionAcquisition
  simp [h1, h2, h3, ownerMatchesLocal_none]

theorem body_expired {R : Type} (t : Topology) (op : Operation) (env : Env R)
    (s2 : Session)
    (h1 : t.hasSessionSupport = true) (h2 : op.session = some s2)
    (h3 : s2.hasEnded = true) :
    executeOperationBody t op env =
      ⟨[], some (some (.mongo MongoExpiredSessionErr), none), some s2, op⟩ := by
  unfold executeOperationBody sessionAcquisition
  simp [h1, h2, h3]

theorem body_snapshot {R : Type} (t : Topology) (op : Operation) (env : Env R)
    (s2 : Session)
    (h1 : t.hasSessionSupport = true) (h2 : op.session = some s2)
    (h3 : s2.hasEnded = false)
    (h4 : s2.snapshotEnabled = true) (h5 : t.supportsSnapshotReads = false) :
    executeOperationBody t op env =
      ⟨[], some (some (.mongo SnapshotCompatibilityErr), none), some s2, op⟩ := by
  unfold executeOperationBody sessionAcquisition
  simp [h1, h2, h3, h4, h5]

theorem body_nosupport_explicit {R : Type} (t : Topology) (op : Operation) (env : Env R)
    (s2 : Session)
    (h1 : t.hasSessionSupport = false) (h2 : op.session = some s2) :
    executeOperationBody t op env =
      ⟨[], some (some (.mongo SessionsCompatibilityErr), none), some s2, op⟩ := by
  unfold executeOperationBody sessionAcquisition
  simp [h1, h2]


/-! ## Concrete fixtures for counterexamples and witnesses -/

def fixtureServer : Server := { wireVersionOfServer := 9, advertisesRetryableWrites := true }

def fixtureServer6 : Server := { wireVersionOfServer := 6, advertisesRetryableWrites := true }

def fixtureTopology : Topology :=
  { shouldCheckForSessionSupport := false
    hasSessionSupport := true
    supportsSnapshotReads := true
    commonWireVersion := some 9
    retryReads := none
    retryWrites := some true }

def plainOp : Operation := { aspects := [] }

def writeRetryOp : Operation :=
  { aspects := [.WRITE_OPERATION, .RETRYABLE], canRetryWrite := true }

def readRetryOp : Operation :=
  { aspects := [.READ_OPERATION, .RETRYABLE], canRetryRead := true }

def networkErr : MongoErr := { kind := .network, message := "connection reset by peer" }

def selectionErr : MongoErr := { kind := .selection, message := "server selection timed out" }

def endSessionErr : MongoErr := { kind := .runtime, message := "failed to end session" }

def mmapRefusalErr : MongoErr :=
  { kind := .server
    message := "Transaction numbers are only allowed on a replica set member or mongos"
    code := some 20
    errmsg := "Transaction numbers are only allowed on a replica set member or mongos" }

def mmapRefusalLabelled : MongoErr := { mmapRefusalErr with labels := ["RetryableWriteError"] }

def envC2 : Env Nat :=
  { freshOwner := 11
    select1 := (some (.mongo selectionErr), none)
    attempt1 := (none, none)
    endSessionError := some (.mongo endSessionErr) }

def envC4 : Env Nat :=
  { freshOwner := 12
    select1 := (none, some fixtureServer)
    attempt1 := (some (.mongo networkErr), none)
    select2 := (none, some fixtureServer)
    attempt2 := (none, some 42) }

def envC5 : Env Nat :=
  { freshOwner := 13
    select1 := (none, some fixtureServer6)
    attempt1 := (some (.mongo mmapRefusalErr), none) }

def envC6 : Env Nat :=
  { freshOwner := 14
    select1 := (none, some fixtureServer)
    attempt1 := (some (.mongo networkErr), none)
    select2 := (none, none) }

def envC6w : Env Nat :=
  { freshOwner := 14
    select1 := (none, some fixtureServer)
    attempt1 := (some (.mongo networkErr), none)
    select2 := (some (.mongo selectionErr), none) }

def sessionInTxn : Session :=
  { owner := none, hasEnded := false, snapshotEnabled := false, txnNumber := 3,
    isPinned := false, inTransaction := true, transactionIsCommitted := false }

def endedSession : Session :=
  { owner := none, hasEnded := true, snapshotEnabled := false, txnNumber := 0,
    isPinned := false, inTransaction := false, transactionIsCommitted := false }

def opSecondaryRead : Operation :=
  { aspects := [.READ_OPERATION], readPreference := some .secondary }

def opWithEndedSession : Operation := { aspects := [], session := some endedSession }

def envTrivial (n : Nat) : Env Nat :=
  { freshOwner := n, select1 := (none, none), attempt1 := (none, none) }

def envC10 : Env Nat :=
  { freshOwner := 18
    select1 := (none, none)
    attempt1 := (none, none)
    innerThrow := some (.js 0) }

/-! ## Claim theorems -/

set_option maxHeartbeats 2000000 in
/-- Claim C1: for every execution of an operation with a session, the
transaction number of the session is incremented exactly once, before the
first attempt, iff the first selection produced a server, the operation is
RETRYABLE with the WRITE aspect and the write-retry gate (willRetryWrite)
holds; in every other case it is unchanged, and it is never decremented. -/
theorem claim_C1 {R : Type} (t : Topology) (s : Session) (op : Operation) (env : Env R) :
    (executeWithServerSelection t (some s) op env).session.map Session.txnNumber
      = some (s.txnNumber + (if writeRetryArmed t s op env then 1 else 0))
    ∧ (executeWithServerSelection t (some s) op env).events.countP isIncEv
      = (if writeRetryArmed t s op env then 1 else 0)
    ∧ ((executeWithServerSelection t (some s) op env).events.takeWhile
        (fun ev => !isAttemptEv ev)).countP isIncEv
      = (executeWithServerSelection t (some s) op env).events.countP isIncEv := by
  unfold executeWithServerSelection writeRetryArmed
  dsimp only [sessionInTransaction, sessionIsPinned, sessionTransactionIsCommitted]
  (repeat' split) <;> (try subst_eqs) <;>
    simp_all [Session.unpin, Session.incrementTransactionNumber, willRetryWriteOf,
      isIncEv, isAttemptEv, List.countP_cons, List.countP_append,
      List.takeWhile_cons, retryOperation_countP_inc, retryOperation_txn]

/-- Claim C2 counterexample: with an implicit session, an execution error
from the inner pipeline and a failing endSession, the surfaced error is the
end-session error, not the execution error: the end-session error shadows a
prior execution error, contradicting the claim. -/
theorem claim_C2_counterexample :
    (executeWithServerSelection fixtureTopology (some (startSession 0 11)) plainOp
        envC2).callbackArgs.1 = some (.mongo selectionErr)
    ∧ (executeOperation fixtureTopology plainOp envC2).callback
      = some (some (.mongo endSessionErr), none)
    ∧ (DriverError.mongo endSessionErr) ≠ (DriverError.mongo selectionErr) :=
  ⟨by decide, by decide, by decide⟩

/-- Claim C2, amended: when an implicit session is ended at teardown, the
end-session error (when present) is surfaced in place of whatever the inner
execution produced, shadowing a successful result AND a prior execution
error; the execution outcome error is surfaced only when endSession reports
no error.  The result value is passed through alongside. -/
theorem claim_C2 {R : Type} (t : Topology) (op : Operation) (env : Env R)
    (h0 : t.shouldCheckForSessionSupport = false)
    (h1 : t.hasSessionSupport = true)
    (h2 : op.session = none)
    (h3 : env.innerThrow = none) :
    (executeOperation t op env).callback = some
      ((match env.endSessionError with
        | some f => some f
        | none => (executeWithServerSelection t
            (some (startSession env.pooledTxnNumber env.freshOwner)) op env).callbackArgs.1),
       (executeWithServerSelection t
          (some (startSession env.pooledTxnNumber env.freshOwner)) op env).callbackArgs.2) := by
  have h := (executeOperation_noCheck t op env h0).trans (body_implicit_normal t op env h1 h2 h3)
  exact congrArg ExecTrace.callback h

/-- Claim C2 witness: the amended theorem applied to concrete input. -/
theorem claim_C2_witness :
    (executeOperation fixtureTopology plainOp envC2).callback = some
      ((match envC2.endSessionError with
        | some f => some f
        | none => (executeWithServerSelection fixtureTopology
            (some (startSession envC2.pooledTxnNumber envC2.freshOwner)) plainOp
            envC2).callbackArgs.1),
       (executeWithServerSelection fixtureTopology
          (some (startSession envC2.pooledTxnNumber envC2.freshOwner)) plainOp
          envC2).callbackArgs.2) :=
  claim_C2 fixtureTopology plainOp envC2 rfl rfl rfl rfl

/-- Claim C3: the retry gates are computed exactly as specified: willRetryRead
iff retryReads is not false, not in a transaction, wire version at least
SUPPORTS_OP_MSG and canRetryRead; willRetryWrite iff retryWrites is true, not
in a transaction, the server advertises retryable writes and canRetryWrite. -/
theorem claim_C3 (t : Topology) (s : Session) (sv : Server) (op : Operation) :
    willRetryReadOf t s.inTransaction (some sv) op
      = (!(t.retryReads == some false) && !s.inTransaction
          && decide (maxWireVersion (some sv) ≥ SUPPORTS_OP_MSG) && op.canRetryRead)
    ∧ willRetryWriteOf t s.inTransaction (some sv) op
      = ((t.retryWrites == some true) && !s.inTransaction
          && supportsRetryableWrites (some sv) && op.canRetryWrite) := by
  constructor <;>
    simp [willRetryReadOf, willRetryWriteOf, supportsRetryableReads, SUPPORTS_OP_MSG]

/-- Claim C4: the wire primitive operation.execute runs at most twice per
execution, and when it runs twice the outcome of the second attempt is surfaced to
the caller unchanged; there is never a third attempt. -/
theorem claim_C4 {R : Type} (t : Topology) (session : Option Session) (op : Operation)
    (env : Env R) :
    (executeWithServerSelection t session op env).events.countP isAttemptEv ≤ 2
    ∧ ((executeWithServerSelection t session op env).events.countP isAttemptEv = 2 →
        (executeWithServerSelection t session op env).callbackArgs = env.attempt2) :=
  ⟨ewss_attempt_le t session op env, ewss_attempt_two t session op env⟩

/-- Claim C4 witness: a run with a retried read performs exactly two attempts
and surfaces the second outcome. -/
theorem claim_C4_witness :
    (executeWithServerSelection fixtureTopology (some (startSession 0 12)) readRetryOp
        envC4).events.countP isAttemptEv ≤ 2
    ∧ (executeWithServerSelection fixtureTopology (some (startSession 0 12)) readRetryOp
        envC4).callbackArgs = envC4.attempt2 :=
  ⟨(claim_C4 fixtureTopology (some (startSession 0 12)) readRetryOp envC4).1,
   (claim_C4 fixtureTopology (some (startSession 0 12)) readRetryOp envC4).2 (by decide)⟩

/-- Claim C5 counterexample: a retry-armed write whose first attempt fails
with code IllegalOperation and a message containing the substring
Transaction numbers, but carrying no retryable label: the retryability check
of source line 172 fires first and the ORIGINAL error is surfaced, not the
canonical remap, contradicting the claim. -/
theorem claim_C5_counterexample :
    writeRetryArmed fixtureTopology (startSession 0 13) writeRetryOp envC5 = true
    ∧ mmapRefusalErr.code = some MONGODB_ERROR_CODES_IllegalOperation
    ∧ testSubstring "Transaction numbers" mmapRefusalErr.errmsg = true
    ∧ (executeWithServerSelection fixtureTopology (some (startSession 0 13)) writeRetryOp
        envC5).callbackArgs = (some (.mongo mmapRefusalErr), none)
    ∧ mmapRefusalErr.message ≠ MMAPv1_RETRY_WRITES_ERROR_MESSAGE :=
  ⟨by decide, by decide, by decide, by decide, by decide⟩

/-- Claim C5, amended: if additionally the error is classified retryable for
writes (isRetryableWriteError, e.g. it carries the RetryableWriteError
label), then the caller receives the stable ServerError carrying exactly the
canonical remap message, and no second attempt is performed. -/
theorem claim_C5 {R : Type} (sel : Selector) (op : Operation) (s : Session)
    (env : Env R) (e : MongoErr) (mwv : Nat)
    (hw : op.hasAspect .WRITE_OPERATION = true)
    (hr : op.hasAspect .READ_OPERATION = false)
    (h1 : isRetryableWriteError e mwv = true)
    (h2 : e.code = some MMAPv1_RETRY_WRITES_ERROR_CODE)
    (h3 : testSubstring "Transaction numbers" e.errmsg = true) :
    (retryOperation sel op s env e mwv).callbackArgs = (some (.mongo MMAPv1RemapError), none)
    ∧ (retryOperation sel op s env e mwv).events.countP isAttemptEv = 0
    ∧ MMAPv1RemapError.message = MMAPv1_RETRY_WRITES_ERROR_MESSAGE := by
  unfold retryOperation
  simp [hw, hr, h1, h2, h3, MMAPv1RemapError]

/-- Claim C5 witness: the amended theorem applied to a labelled MMAPv1
refusal. -/
theorem claim_C5_witness :
    (retryOperation (.readPref .primary) writeRetryOp (startSession 0 13) envC5
        mmapRefusalLabelled 6).callbackArgs = (some (.mongo MMAPv1RemapError), none)
    ∧ (retryOperation (.readPref .primary) writeRetryOp (startSession 0 13) envC5
        mmapRefusalLabelled 6).events.countP isAttemptEv = 0
    ∧ MMAPv1RemapError.message = MMAPv1_RETRY_WRITES_ERROR_MESSAGE :=
  claim_C5 (.readPref .primary) writeRetryOp (startSession 0 13) envC5 mmapRefusalLabelled 6
    (by decide) (by decide) (by decide) (by decide) (by decide)

/-- Claim C6 counterexample: during a read retry, re-selection yields neither
an error nor a server, and the surfaced message is the capability message,
not Server selection failed without error: the wire-version recheck runs
BEFORE the no-server case, contradicting the claim. -/
theorem claim_C6_counterexample :
    envC6.select2 = (none, none)
    ∧ (executeWithServerSelection fixtureTopology (some (startSession 0 14)) readRetryOp
        envC6).callbackArgs
      = (some (.mongo (mongoUnexpected "Selected server does not support retryable reads")), none)
    ∧ mongoUnexpected "Selected server does not support retryable reads"
      ≠ mongoUnexpected "Server selection failed without error" :=
  ⟨by decide, by decide, by decide⟩

/-- Claim C6, amended: when re-selection yields an error the selection error
is surfaced with no second attempt; when it yields neither error nor server,
the wire-version recheck is applied first, treating the absent server as
wire version 0 and as not advertising retryable writes, so a retryable read
(resp. write) surfaces the UnexpectedServerResponse capability message. -/
theorem claim_C6 {R : Type} (sel : Selector) (op : Operation) (s : Session)
    (env : Env R) (e : MongoErr) (mwv : Nat)
    (h1 : (op.hasAspect .WRITE_OPERATION && !isRetryableWriteError e mwv) = false)
    (h2 : (op.hasAspect .READ_OPERATION && !isRetryableReadError e) = false)
    (h3 : (op.hasAspect .WRITE_OPERATION && (e.code == some MMAPv1_RETRY_WRITES_ERROR_CODE)
           && testSubstring "Transaction numbers" e.errmsg) = false) :
    (∀ de sv, env.select2 = (some de, sv) →
      (retryOperation sel op s env e mwv).callbackArgs = (some de, none)
      ∧ (retryOperation sel op s env e mwv).events.countP isAttemptEv = 0)
    ∧ (env.select2 = (none, none) → op.hasAspect .READ_OPERATION = true →
      (retryOperation sel op s env e mwv).callbackArgs
        = (some (.mongo (mongoUnexpected "Selected server does not support retryable reads")), none))
    ∧ (env.select2 = (none, none) → op.hasAspect .READ_OPERATION = false →
        op.hasAspect .WRITE_OPERATION = true →
      (retryOperation sel op s env e mwv).callbackArgs
        = (some (.mongo (mongoUnexpected "Selected server does not support retryable writes")), none)) := by
  refine ⟨?_, ?_, ?_⟩
  · intro de sv hsel
    unfold retryOperation
    simp only [h1, h2, h3, hsel]
    simp [isAttemptEv, List.countP_cons, List.countP_append]
    try (intros; subst_eqs; rfl)
  · intro hsel hrd
    unfold retryOperation
    simp only [h1, h2, h3]
    simp [hsel, hrd, supportsRetryableReads, maxWireVersion, UNKNOWN_WIRE_VERSION]
  · intro hsel hrd hwr
    unfold retryOperation
    simp only [h1, h2, h3]
    simp [hsel, hrd, hwr, supportsRetryableReads, supportsRetryableWrites,
      maxWireVersion, UNKNOWN_WIRE_VERSION]

/-- Claim C6 witness: the amended theorem applied to a re-selection failure
with a selection error. -/
theorem claim_C6_witness :
    (retryOperation (.readPref .primary) readRetryOp (startSession 0 14) envC6w
        networkErr 9).callbackArgs = (some (.mongo selectionErr), none)
    ∧ (retryOperation (.readPref .primary) readRetryOp (startSession 0 14) envC6w
        networkErr 9).events.countP isAttemptEv = 0 :=
  (claim_C6 (.readPref .primary) readRetryOp (startSession 0 14) envC6w networkErr 9
      (by decide) (by decide) (by decide)).1 (.mongo selectionErr) none rfl

/-- Claim C7: for every operation whose session is in a transaction and whose
effective read preference is not primary, execution fails with a Transaction
error before any server selection is attempted and before any server is
contacted (the event trace is empty). -/
theorem claim_C7 {R : Type} (t : Topology) (s : Session) (op : Operation) (env : Env R)
    (h1 : s.inTransaction = true)
    (h2 : ¬ op.readPreference.getD .primary = .primary) :
    (executeWithServerSelection t (some s) op env).callbackArgs
      = (some (.mongo (MongoTransactionErrorFor (op.readPreference.getD .primary))), none)
    ∧ (executeWithServerSelection t (some s) op env).events = [] := by
  unfold executeWithServerSelection
  dsimp only [sessionInTransaction]
  rw [if_pos]
  · exact ⟨rfl, rfl⟩
  · simp [h1, h2]

/-- Claim C7 witness: a secondary read inside a transaction fails pre-flight. -/
theorem claim_C7_witness :
    (executeWithServerSelection fixtureTopology (some sessionInTxn) opSecondaryRead
        (envTrivial 15)).callbackArgs
      = (some (.mongo (MongoTransactionErrorFor
          (opSecondaryRead.readPreference.getD .primary))), none)
    ∧ (executeWithServerSelection fixtureTopology (some sessionInTxn) opSecondaryRead
        (envTrivial 15)).events = [] :=
  claim_C7 fixtureTopology sessionInTxn opSecondaryRead (envTrivial 15) rfl (by decide)

set_option maxHeartbeats 1000000 in
/-- Claim C8: session acquisition fails fast, before any attempt and before
any implicit session is created: ExpiredSession for an ended explicit
session, Compatibility for snapshot reads the topology cannot serve, and
Compatibility when the topology lacks session support but an explicit session
was passed; an implicit session is minted only when the topology supports
sessions and no explicit session was passed. -/
theorem claim_C8 {R : Type} (t : Topology) (op : Operation) (env : Env R)
    (h0 : t.shouldCheckForSessionSupport = false) :
    (∀ s2, op.session = some s2 → t.hasSessionSupport = true → s2.hasEnded = true →
      (executeOperation t op env).callback = some (some (.mongo MongoExpiredSessionErr), none)
      ∧ (executeOperation t op env).events = []
      ∧ (executeOperation t op env).session = some s2)
    ∧ (∀ s2, op.session = some s2 → t.hasSessionSupport = true → s2.hasEnded = false →
        s2.snapshotEnabled = true → t.supportsSnapshotReads = false →
      (executeOperation t op env).callback = some (some (.mongo SnapshotCompatibilityErr), none)
      ∧ (executeOperation t op env).events = []
      ∧ (executeOperation t op env).session = some s2)
    ∧ (∀ s2, op.session = some s2 → t.hasSessionSupport = false →
      (executeOperation t op env).callback = some (some (.mongo SessionsCompatibilityErr), none)
      ∧ (executeOperation t op env).events = []
      ∧ (executeOperation t op env).session = some s2)
    ∧ ((executeOperation t op env).events.countP isStartEv ≠ 0 →
        t.hasSessionSupport = true ∧ op.session = none) := by
  rw [executeOperation_noCheck t op env h0]
  refine ⟨?_, ?_, ?_, ?_⟩
  · intro s2 hs ht he
    rw [body_expired t op env s2 ht hs he]
    exact ⟨rfl, rfl, rfl⟩
  · intro s2 hs ht he hsn hcap
    rw [body_snapshot t op env s2 ht hs he hsn hcap]
    exact ⟨rfl, rfl, rfl⟩
  · intro s2 hs ht
    rw [body_nosupport_explicit t op env s2 ht hs]
    exact ⟨rfl, rfl, rfl⟩
  · intro hcount
    rcases hsup : t.hasSessionSupport with _ | _
    · rcases hsess : op.session with _ | s2
      · rcases hthrow : env.innerThrow with _ | e
        · rw [body_nosession_normal t op env hsup hsess hthrow] at hcount
          exact absurd (ewss_preserve t none op env).2.2.1 hcount
        · rw [body_nosession_throw t op env e hsup hsess hthrow] at hcount
          simp at hcount
      · rw [body_nosupport_explicit t op env s2 hsup hsess] at hcount
        simp at hcount
    · rcases hsess : op.session with _ | s2
      · exact ⟨by simp_all, by simp_all⟩
      · rcases hend : s2.hasEnded with _ | _
        · rcases hsnap : (s2.snapshotEnabled && !t.supportsSnapshotReads) with _ | _
          · rcases hthrow : env.innerThrow with _ | e
            · rw [body_explicit_normal t op env s2 hsup hsess hend hsnap hthrow] at hcount
              exact absurd (ewss_preserve t (some s2) op env).2.2.1 hcount
            · rw [body_explicit_throw t op env s2 e hsup hsess hend hsnap hthrow] at hcount
              simp at hcount
          · have h1 : s2.snapshotEnabled = true := by
              rcases hb : s2.snapshotEnabled <;> simp_all
            have h2 : t.supportsSnapshotReads = false := by
              rcases hb : t.supportsSnapshotReads <;> simp_all
            rw [body_snapshot t op env s2 hsup hsess hend h1 h2] at hcount
            simp at hcount
        · rw [body_expired t op env s2 hsup hsess hend] at hcount
          simp at hcount

/-- Claim C8 witness: an ended explicit session fails fast with
ExpiredSession, no events and no session mutation. -/
theorem claim_C8_witness :
    (executeOperation fixtureTopology opWithEndedSession (envTrivial 16)).callback
      = some (some (.mongo MongoExpiredSessionErr), none)
    ∧ (executeOperation fixtureTopology opWithEndedSession (envTrivial 16)).events = []
    ∧ (executeOperation fixtureTopology opWithEndedSession (envTrivial 16)).session
      = some endedSession :=
  (claim_C8 fixtureTopology opWithEndedSession (envTrivial 16) rfl).1 endedSession rfl rfl rfl

set_option maxHeartbeats 1000000 in
/-- Claim C9: a session is ended by the core exactly once iff it was minted
by this very execution (topology supports sessions and no explicit session
was passed), decided by the owner tag; the ended flag of an explicit session is
never changed by the core. -/
theorem claim_C9 {R : Type} (t : Topology) (op : Operation) (env : Env R)
    (h0 : t.shouldCheckForSessionSupport = false) :
    ((executeOperation t op env).events.countP isEndEv
      = (if t.hasSessionSupport && op.session.isNone then 1 else 0))
    ∧ (∀ s2, op.session = some s2 →
        (executeOperation t op env).session.map Session.hasEnded = some s2.hasEnded) := by
  rw [executeOperation_noCheck t op env h0]
  rcases hsup : t.hasSessionSupport with _ | _
  · rcases hsess : op.session with _ | s2
    · rcases hthrow : env.innerThrow with _ | e
      · rw [body_nosession_normal t op env hsup hsess hthrow]
        refine ⟨?_, ?_⟩
        · simpa [hsup] using (ewss_preserve t none op env).2.2.2
        · intro s2 h; cases h
      · rw [body_nosession_throw t op env e hsup hsess hthrow]
        exact ⟨by simp [hsup], by intro s2 h; cases h⟩
    · rw [body_nosupport_explicit t op env s2 hsup hsess]
      exact ⟨by simp [hsup], by intro s3 h; cases h; rfl⟩
  · rcases hsess : op.session with _ | s2
    · rcases hthrow : env.innerThrow with _ | e
      · rw [body_implicit_normal t op env hsup hsess hthrow]
        refine ⟨?_, ?_⟩
        · have hp := (ewss_preserve t
            (some (startSession env.pooledTxnNumber env.freshOwner)) op env).2.2.2
          simp [hsup, hsess, isEndEv, List.countP_cons, List.countP_append, hp]
        · intro s2 h; cases h
      · rw [body_implicit_throw t op env e hsup hsess hthrow]
        refine ⟨by simp [hsup, hsess, isEndEv, List.countP_cons], ?_⟩
        intro s2 h; cases h
    · rcases hend : s2.hasEnded with _ | _
      · rcases hsnap : (s2.snapshotEnabled && !t.supportsSnapshotReads) with _ | _
        · rcases hthrow : env.innerThrow with _ | e
          · rw [body_explicit_normal t op env s2 hsup hsess hend hsnap hthrow]
            refine ⟨?_, ?_⟩
            · simpa [hsup, hsess] using (ewss_preserve t (some s2) op env).2.2.2
            · intro s3 h
              have h2 : s3 = s2 := by simp_all
              subst h2
              simpa using (ewss_preserve t (some s3) op env).2.1
          · rw [body_explicit_throw t op env s2 e hsup hsess hend hsnap hthrow]
            exact ⟨by simp [hsup, hsess], by intro s3 h; cases h; rfl⟩
        · have h1 : s2.snapshotEnabled = true := by
            rcases hb : s2.snapshotEnabled <;> simp_all
          have h2 : t.supportsSnapshotReads = false := by
            rcases hb : t.supportsSnapshotReads <;> simp_all
          rw [body_snapshot t op env s2 hsup hsess hend h1 h2]
          exact ⟨by simp [hsup, hsess], by intro s3 h; cases h; rfl⟩
      · rw [body_expired t op env s2 hsup hsess hend]
        exact ⟨by simp [hsup, hsess], by intro s3 h; cases h; rfl⟩

/-- Claim C9 witness: an implicit session is ended exactly once. -/
theorem claim_C9_witness :
    (executeOperation fixtureTopology plainOp (envTrivial 17)).events.countP isEndEv = 1 :=
  ((claim_C9 fixtureTopology plainOp (envTrivial 17) rfl).1).trans (by decide)

set_option maxHeartbeats 1000000 in
/-- Claim C10: if the inner pipeline throws synchronously, the coordinator
never invokes the callback at all; the implicit session it created (and only
that one) is still ended; with an explicit or absent session the error is
silently swallowed. -/
theorem claim_C10 {R : Type} (t : Topology) (op : Operation) (env : Env R) (e : DriverError)
    (h0 : t.shouldCheckForSessionSupport = false)
    (h1 : env.innerThrow = some e)
    (h2 : ∃ pr, sessionAcquisition t op env.freshOwner env.pooledTxnNumber = .ok pr) :
    (executeOperation t op env).callback = none
    ∧ ((executeOperation t op env).events.countP isEndEv
        = (if t.hasSessionSupport && op.session.isNone then 1 else 0))
    ∧ (t.hasSessionSupport = true → op.session = none →
        (executeOperation t op env).session.map Session.hasEnded = some true) := by
  rw [executeOperation_noCheck t op env h0]
  rcases hsup : t.hasSessionSupport with _ | _
  · rcases hsess : op.session with _ | s2
    · rw [body_nosession_throw t op env e hsup hsess h1]
      exact ⟨rfl, by simp [hsup], by intro h _; simp [hsup] at h⟩
    · obtain ⟨pr, hpr⟩ := h2
      unfold sessionAcquisition at hpr
      simp [hsup, hsess] at hpr
  · rcases hsess : op.session with _ | s2
    · rw [body_implicit_throw t op env e hsup hsess h1]
      refine ⟨rfl, by simp [hsup, hsess, isEndEv, List.countP_cons], ?_⟩
      intro _ _
      simp [startSession, Session.endSessionState]
    · rcases hend : s2.hasEnded with _ | _
      · rcases hsnap : (s2.snapshotEnabled && !t.supportsSnapshotReads) with _ | _
        · rw [body_explicit_throw t op env s2 e hsup hsess hend hsnap h1]
          exact ⟨rfl, by simp [hsup, hsess], by intro _ h; simp_all⟩
        · obtain ⟨pr, hpr⟩ := h2
          unfold sessionAcquisition at hpr
          simp [hsup, hsess, hend] at hpr
          have hx : s2.snapshotEnabled = true := by
            rcases hb : s2.snapshotEnabled <;> simp_all
          have hy : t.supportsSnapshotReads = false := by
            rcases hb : t.supportsSnapshotReads <;> simp_all
          simp [hx, hy] at hpr
      · obtain ⟨pr, hpr⟩ := h2
        unfold sessionAcquisition at hpr
        simp [hsup, hsess, hend] at hpr

/-- Claim C10 witness: a synchronous inner throw with an implicit session
yields no callback invocation. -/
theorem claim_C10_witness :
    (executeOperation fixtureTopology plainOp envC10).callback = none :=
  (claim_C10 fixtureTopology plainOp envC10 (.js 0) rfl rfl
    ⟨(some 18, some (startSession 0 18)), rfl⟩).1

end ExecCore
